import Mathlib

/-!
Shallow embedding of the multiplayer Pong synchronization engine of the
`MultiplayerPong` React component (src/unnamed/part_000, lines 206-448).
Positions and velocities are modelled as rationals: every numeric operation
the engine performs (adding ±1, ±0.5 steps, sign flips, comparisons) is
exact on IEEE doubles in the ranges involved, so `ℚ` is a faithful model
of the JavaScript numbers.
-/

namespace ArtixPong

/-- Source: `const INITIAL_SPEED = 1;` (part_000 line 220). -/
def INITIAL_SPEED : ℚ := 1

/-- Source: `const MAX_SPEED = 8;` (part_000 line 221). -/
def MAX_SPEED : ℚ := 8

/-- Source: `const PADDLE_SPEED = 7;` (part_000 line 222). -/
def PADDLE_SPEED : ℚ := 7

/-- Source: `const PADDLE_HEIGHT = 80;` (part_000 line 306). -/
def PADDLE_HEIGHT : ℚ := 80

/-- Source: `const CANVAS_HEIGHT = 450;` (part_000 line 307). -/
def CANVAS_HEIGHT : ℚ := 450

/-- Source: `const CANVAS_WIDTH = 800;` (part_000 line 308). -/
def CANVAS_WIDTH : ℚ := 800

/-- The ball record `{x, y, dx, dy}` of `gameState`. -/
structure Ball where
  x : ℚ
  y : ℚ
  dx : ℚ
  dy : ℚ
deriving DecidableEq, Repr

/-- A paddle record `{y}` of `gameState`. -/
structure Paddle where
  y : ℚ
deriving DecidableEq, Repr

/-- The score record `{p1, p2}` of `gameState`; `p1` is the Host (left),
`p2` the Client (right), per the draw routine and the on-screen labels. -/
structure Score where
  p1 : ℕ
  p2 : ℕ
deriving DecidableEq, Repr

/-- The authoritative `gameState` ref held by the Host. -/
structure GameState where
  ball : Ball
  p1 : Paddle
  p2 : Paddle
  score : Score
deriving DecidableEq, Repr

/-- Source: the initializer of `gameState` (part_000 lines 225-230):
ball at (400,225) moving with `dx = dy = INITIAL_SPEED`, both paddles at
185, both scores 0. -/
def initialGameState : GameState :=
  { ball := { x := 400, y := 225, dx := INITIAL_SPEED, dy := INITIAL_SPEED }
    p1 := { y := 185 }
    p2 := { y := 185 }
    score := { p1 := 0, p2 := 0 } }

/-- Source: `resetBall` (part_000 lines 394-401). The two Booleans stand
for the outcomes of the two independent `Math.random() > 0.5` draws for
`dx` and `dy`. -/
def resetBall (r1 r2 : Bool) : Ball :=
  { x := 400
    y := 225
    dx := if r1 then INITIAL_SPEED else -INITIAL_SPEED
    dy := if r2 then INITIAL_SPEED else -INITIAL_SPEED }

/-- Source: the hit-branch locals of `updatePhysics` (part_000 lines
371-372 and 377-378): `let newSpeed = Math.abs(ball.dx) + 0.5;
if (newSpeed > MAX_SPEED) newSpeed = MAX_SPEED;`. -/
def newSpeed (d : ℚ) : ℚ :=
  if |d| + 1/2 > MAX_SPEED then MAX_SPEED else |d| + 1/2

/-- Source: `updatePhysics` (part_000 lines 357-392), the Host-only
simulation step, with the in-place mutations of `state.ball` sequenced
exactly as in the source: integrate position; flip `dy` on a vertical
wall; test the left paddle (sets `dx` to the capped increased speed,
rightward); test the right paddle (reads the possibly-updated `dx`, sets
it leftward); then the scoring branch, which replaces the whole ball via
`resetBall` and increments `score.p2` when `x < 0` or `score.p1` when
`x > CANVAS_WIDTH`. `r1 r2` are the random sign draws used on a reset.
The trailing broadcast (`conn.send`) is modelled separately in
`hostTick`. -/
def updatePhysics (s : GameState) (r1 r2 : Bool) : GameState :=
  let nx := s.ball.x + s.ball.dx
  let ny := s.ball.y + s.ball.dy
  let dy1 := if ny + 6 > CANVAS_HEIGHT ∨ ny - 6 < 0 then -s.ball.dy else s.ball.dy
  let dx1 :=
    if nx - 6 < 10 + 10 ∧ ny > s.p1.y ∧ ny < s.p1.y + PADDLE_HEIGHT then
      newSpeed s.ball.dx
    else s.ball.dx
  let dx2 :=
    if nx + 6 > CANVAS_WIDTH - 20 ∧ ny > s.p2.y ∧ ny < s.p2.y + PADDLE_HEIGHT then
      -(newSpeed dx1)
    else dx1
  if nx < 0 then
    { s with ball := resetBall r1 r2, score := { s.score with p2 := s.score.p2 + 1 } }
  else if nx > CANVAS_WIDTH then
    { s with ball := resetBall r1 r2, score := { s.score with p1 := s.score.p1 + 1 } }
  else
    { s with ball := { x := nx, y := ny, dx := dx2, dy := dy1 } }

/-- The two wire message kinds of the sync protocol (§4.5):
`INPUT{y}` and `UPDATE{state}` (the spec's `STATE`). -/
inductive Msg where
  | input (y : ℚ)
  | update (state : GameState)
deriving DecidableEq

/-- Source: the Host branch of the `connection.on('data')` handler in
`setupConnectionHandlers` (part_000 lines 259-265): an `INPUT` message
overwrites `gameState.current.p2.y` unconditionally; any other message
kind is ignored by the Host. -/
def hostOnData (s : GameState) (m : Msg) : GameState :=
  match m with
  | .input y => { s with p2 := { s.p2 with y := y } }
  | .update _ => s

/-- Delivering a sequence of messages to the Host's data handler. -/
def hostProcess (s : GameState) (msgs : List Msg) : GameState :=
  msgs.foldl hostOnData s

lemma hostProcess_append (s : GameState) (l1 l2 : List Msg) :
    hostProcess s (l1 ++ l2) = hostProcess (hostProcess s l1) l2 :=
  List.foldl_append _ _ _ _

lemma hostProcess_no_input (post : List Msg) (s : GameState)
    (h : ∀ z : ℚ, Msg.input z ∉ post) :
    (hostProcess s post).p2.y = s.p2.y := by
  induction post generalizing s with
  | nil => rfl
  | cons m ms ih =>
    cases m with
    | input z => exact absurd (List.mem_cons_self _ _) (h z)
    | update st =>
      simpa [hostProcess, hostOnData] using
        ih s (fun z hz => (h z) (List.mem_cons_of_mem _ hz))

/-- C1: the Host's client paddle after a delivered sequence of messages
equals the `y` of the last `INPUT` received; all earlier messages of the
sequence (lost or not) are irrelevant, as is any non-`INPUT` traffic after
it. Last-write-wins, unconditional overwrite. -/
theorem c1_last_write_wins (s : GameState) (pre post : List Msg) (y : ℚ)
    (h : ∀ z : ℚ, Msg.input z ∉ post) :
    (hostProcess s (pre ++ Msg.input y :: post)).p2.y = y := by
  rw [show Msg.input y :: post = [Msg.input y] ++ post from rfl,
      ← List.append_assoc, hostProcess_append, hostProcess_no_input post _ h,
      hostProcess_append]
  rfl

/-- Witness for C1 at a concrete delivered sequence. -/
theorem c1_last_write_wins_witness :
    (hostProcess initialGameState
      [Msg.input 10, Msg.input 42, Msg.update initialGameState]).p2.y = 42 :=
  c1_last_write_wins initialGameState [Msg.input 10]
    [Msg.update initialGameState] 42 (by intro z hz; simp at hz)

/-- The game states the Host can reach: the initial `gameState`, plus the
effect of every event that mutates it on the Host — a physics tick with
any outcome of the two random draws, an incoming `INPUT{y}` with any `y`
(part_000 line 262), and the per-frame write of the Host's own sampled
paddle into `p1.y` (part_000 line 340). -/
inductive Reachable : GameState → Prop where
  | init : Reachable initialGameState
  | tick (s : GameState) (r1 r2 : Bool) :
      Reachable s → Reachable (updatePhysics s r1 r2)
  | clientInput (s : GameState) (y : ℚ) :
      Reachable s → Reachable (hostOnData s (Msg.input y))
  | hostInput (s : GameState) (y : ℚ) :
      Reachable s → Reachable { s with p1 := { y := y } }

lemma newSpeed_le (d : ℚ) : newSpeed d ≤ MAX_SPEED := by
  have h0 : (0:ℚ) ≤ |d| := abs_nonneg d
  unfold newSpeed
  split_ifs with h
  · exact le_refl _
  · exact le_of_not_lt h

lemma newSpeed_pos (d : ℚ) : 0 < newSpeed d := by
  have h0 : (0:ℚ) ≤ |d| := abs_nonneg d
  unfold newSpeed MAX_SPEED
  split_ifs with h
  · norm_num
  · linarith

lemma abs_newSpeed (d : ℚ) : |newSpeed d| = newSpeed d :=
  abs_of_pos (newSpeed_pos d)

lemma abs_dx_updatePhysics (s : GameState) (r1 r2 : Bool)
    (h : |s.ball.dx| ≤ MAX_SPEED) :
    |(updatePhysics s r1 r2).ball.dx| ≤ MAX_SPEED := by
  unfold updatePhysics
  dsimp only
  split_ifs <;>
    simp only [resetBall] <;>
    first
      | exact h
      | (rw [abs_neg, abs_newSpeed]; exact newSpeed_le _)
      | (rw [abs_newSpeed]; exact newSpeed_le _)
      | (split_ifs <;> norm_num [INITIAL_SPEED, MAX_SPEED])

/-- C2: (1) the horizontal-speed cap is an invariant of every reachable
Host game state: `|ball.dx| ≤ MAX_SPEED = 8` always holds after collision
resolution; (2) a left-paddle hit that does not also score sets `dx` to
`min(|dx| + 0.5, 8)`, i.e. increases the magnitude by the fixed increment
0.5 capped at `MAX_SPEED`, directed rightward (away from the left side);
(3) symmetrically a right-paddle hit sets `dx` to `-min(|dx| + 0.5, 8)`,
directed leftward. -/
theorem c2_speed_cap :
    (∀ s : GameState, Reachable s → |s.ball.dx| ≤ MAX_SPEED) ∧
    (∀ (s : GameState) (r1 r2 : Bool),
      (s.ball.x + s.ball.dx - 6 < 10 + 10 ∧
        s.ball.y + s.ball.dy > s.p1.y ∧
        s.ball.y + s.ball.dy < s.p1.y + PADDLE_HEIGHT) →
      0 ≤ s.ball.x + s.ball.dx →
      (updatePhysics s r1 r2).ball.dx = newSpeed s.ball.dx ∧
      newSpeed s.ball.dx = min (|s.ball.dx| + 1/2) MAX_SPEED ∧
      0 < (updatePhysics s r1 r2).ball.dx) ∧
    (∀ (s : GameState) (r1 r2 : Bool),
      (s.ball.x + s.ball.dx + 6 > CANVAS_WIDTH - 20 ∧
        s.ball.y + s.ball.dy > s.p2.y ∧
        s.ball.y + s.ball.dy < s.p2.y + PADDLE_HEIGHT) →
      s.ball.x + s.ball.dx ≤ CANVAS_WIDTH →
      (updatePhysics s r1 r2).ball.dx = -(newSpeed s.ball.dx) ∧
      (updatePhysics s r1 r2).ball.dx < 0) := by
  refine ⟨?_, ?_, ?_⟩
  · intro s hs
    induction hs with
    | init => norm_num [initialGameState, INITIAL_SPEED, MAX_SPEED]
    | tick s r1 r2 _ ih => exact abs_dx_updatePhysics s r1 r2 ih
    | clientInput s y _ ih => simpa [hostOnData] using ih
    | hostInput s y _ ih => simpa using ih
  · intro s r1 r2 hhit hx
    have hno2 : ¬(s.ball.x + s.ball.dx + 6 > CANVAS_WIDTH - 20 ∧
        s.ball.y + s.ball.dy > s.p2.y ∧
        s.ball.y + s.ball.dy < s.p2.y + PADDLE_HEIGHT) := by
      rintro ⟨h2, -, -⟩
      have := hhit.1
      norm_num [CANVAS_WIDTH] at h2 this
      linarith
    have hxlt : ¬(s.ball.x + s.ball.dx < 0) := not_lt.mpr hx
    have hxgt : ¬(s.ball.x + s.ball.dx > CANVAS_WIDTH) := by
      have := hhit.1
      norm_num [CANVAS_WIDTH] at this ⊢
      linarith
    refine ⟨?_, ?_, ?_⟩
    · simp only [updatePhysics, if_pos hhit, if_neg hno2, if_neg hxlt, if_neg hxgt]
    · unfold newSpeed
      rcases le_or_lt (|s.ball.dx| + 1/2) MAX_SPEED with hle | hgt
      · rw [if_neg (not_lt.mpr hle), min_eq_left hle]
      · rw [if_pos hgt, min_eq_right (le_of_lt hgt)]
    · simp only [updatePhysics, if_pos hhit, if_neg hno2, if_neg hxlt, if_neg hxgt]
      exact newSpeed_pos _
  · intro s r1 r2 hhit hx
    have hno1 : ¬(s.ball.x + s.ball.dx - 6 < 10 + 10 ∧
        s.ball.y + s.ball.dy > s.p1.y ∧
        s.ball.y + s.ball.dy < s.p1.y + PADDLE_HEIGHT) := by
      rintro ⟨h1, -, -⟩
      have := hhit.1
      norm_num [CANVAS_WIDTH] at h1 this
      linarith
    have hxlt : ¬(s.ball.x + s.ball.dx < 0) := by
      have := hhit.1
      norm_num [CANVAS_WIDTH] at this ⊢
      linarith
    have hxgt : ¬(s.ball.x + s.ball.dx > CANVAS_WIDTH) := not_lt.mpr hx
    constructor
    · simp only [updatePhysics, if_pos hhit, if_neg hno1, if_neg hxlt, if_neg hxgt]
    · simp only [updatePhysics, if_pos hhit, if_neg hno1, if_neg hxlt, if_neg hxgt]
      simpa using newSpeed_pos s.ball.dx

/-- Witness for C2 at concrete inputs: the initial state satisfies the
cap, a concrete left-paddle hit (ball arriving at x = 25, y = 201 onto
the paddle at 185 with dx = -2) yields dx = 2.5, and a concrete
right-paddle hit (ball arriving at x = 779, y = 201 with dx = 2) yields
dx = -2.5. -/
theorem c2_speed_cap_witness :
    |initialGameState.ball.dx| ≤ MAX_SPEED ∧
    (updatePhysics
      { ball := { x := 27, y := 200, dx := -2, dy := 1 }
        p1 := { y := 185 }, p2 := { y := 185 }
        score := { p1 := 0, p2 := 0 } } true true).ball.dx = 5/2 ∧
    (updatePhysics
      { ball := { x := 777, y := 200, dx := 2, dy := 1 }
        p1 := { y := 185 }, p2 := { y := 185 }
        score := { p1 := 0, p2 := 0 } } true true).ball.dx = -(5/2) := by
  refine ⟨c2_speed_cap.1 initialGameState Reachable.init, ?_, ?_⟩
  · have h := (c2_speed_cap.2.1
      { ball := { x := 27, y := 200, dx := -2, dy := 1 }
        p1 := { y := 185 }, p2 := { y := 185 }
        score := { p1 := 0, p2 := 0 } } true true
      (by norm_num [PADDLE_HEIGHT]) (by norm_num)).1
    rw [h]
    norm_num [newSpeed, MAX_SPEED]
  · have h := (c2_speed_cap.2.2
      { ball := { x := 777, y := 200, dx := 2, dy := 1 }
        p1 := { y := 185 }, p2 := { y := 185 }
        score := { p1 := 0, p2 := 0 } } true true
      (by norm_num [CANVAS_WIDTH, PADDLE_HEIGHT]) (by norm_num [CANVAS_WIDTH])).1
    rw [h]
    norm_num [newSpeed, MAX_SPEED]

lemma abs_dy_updatePhysics (s : GameState) (r1 r2 : Bool)
    (h : |s.ball.dy| = INITIAL_SPEED) :
    |(updatePhysics s r1 r2).ball.dy| = INITIAL_SPEED := by
  unfold updatePhysics
  dsimp only
  split_ifs <;>
    simp only [resetBall] <;>
    first
      | exact h
      | (rw [abs_neg]; exact h)
      | (split_ifs <;> norm_num [INITIAL_SPEED])

/-- C10: in every reachable Host game state the vertical speed magnitude
is exactly `INITIAL_SPEED = 1`: wall collisions only negate `dy`, paddle
hits never touch `dy`, and the post-score reset reassigns `dy = ±1`, so
no step of the simulation ever changes `|dy|`. -/
theorem c10_dy_magnitude (s : GameState) (hs : Reachable s) :
    |s.ball.dy| = 1 := by
  have : |s.ball.dy| = INITIAL_SPEED := by
    induction hs with
    | init => norm_num [initialGameState, INITIAL_SPEED]
    | tick s r1 r2 _ ih => exact abs_dy_updatePhysics s r1 r2 ih
    | clientInput s y _ ih => simpa [hostOnData] using ih
    | hostInput s y _ ih => simpa using ih
  simpa [INITIAL_SPEED] using this

/-- Witness for C10 at a concrete reachable state: one physics tick from
the initial state. -/
theorem c10_dy_magnitude_witness :
    |(updatePhysics initialGameState true false).ball.dy| = 1 :=
  c10_dy_magnitude (updatePhysics initialGameState true false)
    (Reachable.tick initialGameState true false Reachable.init)

/-- A concrete pre-tick state whose ball crosses `x = 0` on the next
physics step: ball at `x = 1/2` moving with `dx = -1`. -/
def c4State : GameState :=
  { ball := { x := 1/2, y := 225, dx := -1, dy := 1 }
    p1 := { y := 185 }
    p2 := { y := 185 }
    score := { p1 := 0, p2 := 0 } }

/-- C4 counterexample: when the ball crosses below `x = 0` (the Host's
left side — a miss by the Host), the code runs `state.score.p2++`, i.e.
it increments the CLIENT's score (`p2` is the right/Client player per the
draw routine and screen labels), not the Host's. At the concrete state
`c4State` the Host's score `p1` stays 0, refuting the claim that the Host
player's score increments by exactly 1. -/
theorem c4_counterexample :
    ¬((updatePhysics c4State true true).score.p1 = c4State.score.p1 + 1) ∧
    (updatePhysics c4State true true).score.p2 = c4State.score.p2 + 1 := by
  norm_num [updatePhysics, c4State, resetBall, CANVAS_HEIGHT, CANVAS_WIDTH,
    PADDLE_HEIGHT, INITIAL_SPEED]

set_option maxRecDepth 8000 in
/-- C4 amended: on a Host tick in which the ball's x position crosses
below 0 (a miss by the Host), the CLIENT's score `score.p2` increments by
exactly 1, the Host's score `score.p1` is unchanged, and the ball is
reset to `(400, 225)` with `|dx| = |dy| = INITIAL_SPEED = 1` and
independently randomized signs for `dx` and `dy` (the `r1`, `r2`
draws). -/
theorem c4_amended (s : GameState) (r1 r2 : Bool)
    (h : s.ball.x + s.ball.dx < 0) :
    (updatePhysics s r1 r2).score.p2 = s.score.p2 + 1 ∧
    (updatePhysics s r1 r2).score.p1 = s.score.p1 ∧
    (updatePhysics s r1 r2).ball.x = 400 ∧
    (updatePhysics s r1 r2).ball.y = 225 ∧
    |(updatePhysics s r1 r2).ball.dx| = INITIAL_SPEED ∧
    |(updatePhysics s r1 r2).ball.dy| = INITIAL_SPEED ∧
    (updatePhysics s r1 r2).ball.dx =
      (if r1 then INITIAL_SPEED else -INITIAL_SPEED) ∧
    (updatePhysics s r1 r2).ball.dy =
      (if r2 then INITIAL_SPEED else -INITIAL_SPEED) := by
  unfold updatePhysics
  dsimp only
  rw [if_pos h]
  refine ⟨rfl, rfl, ?_, ?_, ?_, ?_, ?_, ?_⟩ <;>
    cases r1 <;> cases r2 <;> norm_num [resetBall, INITIAL_SPEED]

/-- Witness for C4 (amended) at the concrete state `c4State`. -/
theorem c4_amended_witness :
    (updatePhysics c4State true false).score.p2 = 1 ∧
    (updatePhysics c4State true false).score.p1 = 0 := by
  have h := c4_amended c4State true false (by norm_num [c4State])
  simpa [c4State] using And.intro h.1 h.2.1

/-- The `keysPressed` ref `{up, down}` (part_000 line 233): two Booleans
toggled by the keydown/keyup handlers. -/
structure Keys where
  up : Bool
  down : Bool
deriving DecidableEq, Repr

/-- Source: step 1 of the frame `loop` (part_000 lines 325-335): if the
up key is held and `myPaddle > 0`, subtract `PADDLE_SPEED`; then if the
down key is held and the (possibly just-updated) `myPaddle` is below
`CANVAS_HEIGHT - PADDLE_HEIGHT`, add `PADDLE_SPEED`; `moved` records
whether either branch fired. Returns the new `myPaddle` and `moved`. -/
def inputStep (k : Keys) (y : ℚ) : ℚ × Bool :=
  let s1 := if k.up = true ∧ y > 0 then (y - PADDLE_SPEED, true) else (y, false)
  let s2 := if k.down = true ∧ s1.1 < CANVAS_HEIGHT - PADDLE_HEIGHT then
      (s1.1 + PADDLE_SPEED, true)
    else s1
  s2

/-- Iterating the input-sampling step over a sequence of per-frame key
states, starting from a paddle position. -/
def simulateInput (ks : List Keys) (y : ℚ) : ℚ :=
  ks.foldl (fun z k => (inputStep k z).1) y

set_option maxRecDepth 80000 in
/-- C3 counterexample: the movement code gates on the boundary but does
not clamp. From the initial `myPaddle = 185`, 27 consecutive frames of
held up-arrow reach `185 - 27·7 = -4 < 0`: the step from 3 passes the
`myPaddle > 0` gate and lands at -4, outside `[0, 370]`. The claimed
invariant `myPaddle ∈ [0, field_height - paddle_height]` is violated. -/
theorem c3_counterexample :
    simulateInput (List.replicate 27 { up := true, down := false }) 185 = -4 ∧
    ¬(0 ≤ simulateInput (List.replicate 27 { up := true, down := false }) 185) := by
  norm_num [simulateInput, inputStep, List.replicate, List.foldl,
    PADDLE_SPEED, CANVAS_HEIGHT, PADDLE_HEIGHT]

lemma inputStep_bounds (k : Keys) (y : ℚ) (h1 : -7 < y) (h2 : y < 377) :
    -7 < (inputStep k y).1 ∧ (inputStep k y).1 < 377 := by
  unfold inputStep
  dsimp only
  split_ifs with ha hb hb <;> dsimp only <;>
    norm_num [PADDLE_SPEED, CANVAS_HEIGHT, PADDLE_HEIGHT] at * <;>
    constructor <;> linarith

/-- C3 amended: the per-frame movement step keeps `myPaddle` within the
open interval `(0 - PADDLE_SPEED, (CANVAS_HEIGHT - PADDLE_HEIGHT) +
PADDLE_SPEED) = (-7, 377)` — the claimed `[0, 370]` widened by one
movement step on each side, which is exactly what the gate-without-clamp
code guarantees from the initial position 185 under every input
sequence. -/
theorem c3_amended (ks : List Keys) :
    -PADDLE_SPEED < simulateInput ks 185 ∧
    simulateInput ks 185 < CANVAS_HEIGHT - PADDLE_HEIGHT + PADDLE_SPEED := by
  have key : ∀ (l : List Keys) (y : ℚ), -7 < y → y < 377 →
      -7 < simulateInput l y ∧ simulateInput l y < 377 := by
    intro l
    induction l with
    | nil => intro y h1 h2; exact ⟨h1, h2⟩
    | cons k ks ih =>
      intro y h1 h2
      have hb := inputStep_bounds k y h1 h2
      simpa [simulateInput, List.foldl] using ih _ hb.1 hb.2
  have h := key ks 185 (by norm_num) (by norm_num)
  norm_num [PADDLE_SPEED, CANVAS_HEIGHT, PADDLE_HEIGHT]
  exact h

/-- The `role` value of a peer (part_000 line 216): `'host'` or
`'client'`. -/
inductive Role where
  | host
  | client
deriving DecidableEq, Repr

/-- Source: step 2 of the frame `loop` (part_000 lines 337-346), fused
with step 1: sample the paddle, then — only when `moved` — either write
the new value into `gameState.p1.y` (Host) or send `INPUT{y}` over the
connection (Client). Returns the new `myPaddle`, the game state, and the
list of messages sent this frame. -/
def syncStep (role : Role) (k : Keys) (y : ℚ) (s : GameState) :
    ℚ × GameState × List Msg :=
  let r := inputStep k y
  if r.2 = true then
    match role with
    | Role.host => (r.1, { s with p1 := { y := r.1 } }, [])
    | Role.client => (r.1, s, [Msg.input r.1])
  else (r.1, s, [])

lemma inputStep_not_moved (k : Keys) (y : ℚ)
    (h : (inputStep k y).2 = false) : (inputStep k y).1 = y := by
  unfold inputStep at *
  dsimp only at *
  split_ifs at *
  all_goals simp_all

/-- C7 counterexample: with both keys held at `myPaddle = 185`, the up
branch moves to 178 and the down branch moves back to 185 — the sampled
value is unchanged — yet `moved` is true, so a Client sends an
`INPUT{185}` message that frame. This refutes the claim that no message
is sent on a frame where the value did not change. -/
theorem c7_counterexample :
    (inputStep { up := true, down := true } 185).1 = 185 ∧
    (syncStep Role.client { up := true, down := true } 185
        initialGameState).2.2 = [Msg.input 185] := by
  norm_num [syncStep, inputStep, PADDLE_SPEED, CANVAS_HEIGHT, PADDLE_HEIGHT]

/-- C7 amended: in the per-frame input-sync step, the Host writes the
newly sampled value into `gameState.p1.y` exactly when a movement branch
fired (so whenever the paddle was in sync before the frame, it is equal
to the sampled value after it), and sends nothing; a Client sends
`INPUT{y}` in exactly the frames where a movement branch fired (the
`moved` flag). `moved` coincides with "the value changed" in every frame
except when both keys are held simultaneously, in which case an `INPUT`
carrying an unchanged value is sent; in particular every change of the
value is sent. No throttling is applied otherwise. -/
theorem c7_amended (k : Keys) (y : ℚ) (s : GameState) :
    ((syncStep Role.host k y s).2.1.p1.y =
      (if (inputStep k y).2 = true then (inputStep k y).1 else s.p1.y)) ∧
    (s.p1.y = y → (syncStep Role.host k y s).2.1.p1.y = (inputStep k y).1) ∧
    (syncStep Role.host k y s).2.2 = [] ∧
    ((syncStep Role.client k y s).2.2 =
      if (inputStep k y).2 = true then [Msg.input (inputStep k y).1] else []) ∧
    ((inputStep k y).1 ≠ y →
      (syncStep Role.client k y s).2.2 = [Msg.input (inputStep k y).1]) ∧
    (¬(k.up = true ∧ k.down = true) → (inputStep k y).2 = true →
      (inputStep k y).1 ≠ y) := by
  refine ⟨?_, ?_, ?_, ?_, ?_, ?_⟩
  · by_cases h : (inputStep k y).2 = true <;> simp [syncStep, h]
  · intro hsync
    by_cases h : (inputStep k y).2 = true
    · simp [syncStep, h]
    · have := inputStep_not_moved k y (by simpa using h)
      simp [syncStep, h, this, hsync]
  · by_cases h : (inputStep k y).2 = true <;> simp [syncStep, h]
  · by_cases h : (inputStep k y).2 = true <;> simp [syncStep, h]
  · intro hne
    have hmoved : (inputStep k y).2 = true := by
      by_contra h
      exact hne (inputStep_not_moved k y (by simpa using h))
    simp [syncStep, hmoved]
  · intro hnot hmoved
    obtain ⟨up, down⟩ := k
    unfold inputStep at *
    dsimp only at *
    cases up <;> cases down <;> split_ifs at * <;>
      simp_all <;> intro hEq <;> norm_num [PADDLE_SPEED] at hEq

/-- Witness for C7 (amended): with only the down key held at a synced
paddle of 185, the Host's authoritative paddle field ends the frame at
the newly sampled value 192. -/
theorem c7_amended_witness :
    (syncStep Role.host { up := false, down := true } 185
        initialGameState).2.1.p1.y = 192 := by
  have h := (c7_amended { up := false, down := true } 185 initialGameState).2.1 rfl
  rw [h]
  norm_num [inputStep, PADDLE_SPEED, CANVAS_HEIGHT, PADDLE_HEIGHT]

/-- The fixed lobby-code tag `'ARTIX-'`. JavaScript strings are modelled
as `List Char`: `toUpperCase` on the relevant ASCII alphabet is
`List.map Char.toUpper`, `startsWith` is `List.isPrefixOf`, and `+` is
`++`. -/
def artixTag : List Char := "ARTIX-".data

/-- Source: the normalization in `handleJoin` (part_000 line 281):
`joinId.toUpperCase().startsWith('ARTIX-') ? joinId.toUpperCase() :
'ARTIX-' + joinId`. Note that the else branch concatenates the RAW
`joinId`, not its upper-casing. -/
def cleanId (joinId : List Char) : List Char :=
  if List.isPrefixOf artixTag (joinId.map Char.toUpper) = true then
    joinId.map Char.toUpper
  else artixTag ++ joinId

/-- The `mode` state of the Pong component (part_000 line 215). -/
inductive Mode where
  | menu
  | hosting
  | joining
  | playing
deriving DecidableEq, Repr

/-- The connection-facing UI state of one peer: its `mode`, its assigned
`role` (none before assignment), and the status message. -/
structure PeerUi where
  mode : Mode
  role : Option Role
  statusMsg : List Char
deriving DecidableEq, Repr

/-- Source: the `newPeer.on('connection')` handler (part_000 lines
246-253): an incoming connection makes this peer the Host — it sets
`role := 'host'`, `mode := 'playing'` and the status to `CONNECTED`,
with no negotiation message exchanged. -/
def onIncomingConnection (s : PeerUi) : PeerUi :=
  { s with role := some Role.host, mode := Mode.playing,
           statusMsg := "CONNECTED".data }

/-- Source: `handleJoin` (part_000 lines 279-295): a falsy (empty)
`joinId` aborts; otherwise the peer normalizes the code with `cleanId`,
dials that identity, and sets `role := 'client'`. Returns the new UI
state and the identity actually dialed (`peer.connect(cleanId)`), if
any. -/
def handleJoin (s : PeerUi) (joinId : List Char) : PeerUi × Option (List Char) :=
  if joinId = [] then (s, none)
  else
    ({ s with role := some Role.client,
              statusMsg := "CONNECTING TO ".data ++ cleanId joinId ++ "...".data },
     some (cleanId joinId))

/-- Source: the `connection.on('open')` handler installed by
`handleJoin` (part_000 lines 288-292): the joiner enters the playing
mode; its role was already set to `'client'` and is not touched. -/
def onConnOpenAfterJoin (s : PeerUi) : PeerUi :=
  { s with mode := Mode.playing, statusMsg := "CONNECTED".data }

/-- C5: role assignment is deterministic from connection direction, with
no negotiation messages: the peer whose incoming-connection handler
fires becomes Host, and the peer that initiated the outbound connect
becomes Client; in the scenario where A listens as `ARTIX-1234` and B
joins with that code, A ends with role Host and B — after the connection
opens — with role Client, having dialed exactly `ARTIX-1234`. -/
theorem c5_role_from_direction (a b : PeerUi) (j : List Char) (hj : j ≠ []) :
    (onIncomingConnection a).role = some Role.host ∧
    (onConnOpenAfterJoin (handleJoin b j).1).role = some Role.client ∧
    (handleJoin b j).2 = some (cleanId j) ∧
    cleanId "ARTIX-1234".data = "ARTIX-1234".data := by
  refine ⟨rfl, ?_, ?_, by decide⟩
  · simp [handleJoin, onConnOpenAfterJoin, hj]
  · simp [handleJoin, hj]

/-- Witness for C5 with the scenario's concrete lobby code. -/
theorem c5_role_from_direction_witness :
    (onIncomingConnection { mode := Mode.hosting, role := none, statusMsg := [] }).role
      = some Role.host ∧
    (onConnOpenAfterJoin
      (handleJoin { mode := Mode.joining, role := none, statusMsg := [] }
        "ARTIX-1234".data).1).role = some Role.client :=
  ⟨(c5_role_from_direction
      { mode := Mode.hosting, role := none, statusMsg := [] }
      { mode := Mode.joining, role := none, statusMsg := [] }
      "ARTIX-1234".data (by decide)).1,
   (c5_role_from_direction
      { mode := Mode.hosting, role := none, statusMsg := [] }
      { mode := Mode.joining, role := none, statusMsg := [] }
      "ARTIX-1234".data (by decide)).2.1⟩

/-- C6 counterexample: the inputs `"a"` and `"A"` differ only in letter
case, yet the code dials `ARTIX-a` for the first and `ARTIX-A` for the
second — the else branch of the normalization concatenates the raw
input, not its upper-casing — so they do NOT resolve to the same target
identity, refuting the claim. -/
theorem c6_counterexample :
    "a".data.map Char.toUpper = "A".data.map Char.toUpper ∧
    cleanId "a".data = "ARTIX-a".data ∧
    cleanId "A".data = "ARTIX-A".data ∧
    cleanId "a".data ≠ cleanId "A".data := by
  decide

/-- C6 amended: the identity dialed is the upper-cased input when the
upper-cased input already starts with `ARTIX-`, and otherwise `ARTIX-`
followed by the input AS ENTERED; consequently two inputs differing only
in letter case resolve to the same target identity whenever their
upper-casing starts with the `ARTIX-` tag (but not in general). -/
theorem c6_amended (j1 j2 : List Char)
    (hcase : j1.map Char.toUpper = j2.map Char.toUpper)
    (hpre : List.isPrefixOf artixTag (j1.map Char.toUpper) = true) :
    cleanId j1 = cleanId j2 ∧ cleanId j1 = j1.map Char.toUpper := by
  have hpre2 : List.isPrefixOf artixTag (j2.map Char.toUpper) = true := by
    rw [← hcase]; exact hpre
  unfold cleanId
  rw [if_pos hpre, if_pos hpre2, hcase]
  exact ⟨rfl, rfl⟩

/-- Witness for C6 (amended): `artix-1234` and `ARTIX-1234` dial the
same normalized identity. -/
theorem c6_amended_witness :
    cleanId "artix-1234".data = cleanId "ARTIX-1234".data ∧
    cleanId "artix-1234".data = "artix-1234".data.map Char.toUpper :=
  c6_amended "artix-1234".data "ARTIX-1234".data (by decide) (by decide)

/-- The four phases of a Host frame named by the claim: input sampling,
physics update, STATE broadcast, render. -/
inductive Phase where
  | input
  | physics
  | broadcast
  | render
deriving DecidableEq, Repr

/-- Source: the body of `loop` on the Host (part_000 lines 325-355),
with the broadcast that ends `updatePhysics` (lines 388-391) made
explicit: (1) sample input and sync it (`syncStep`), (2) run
`updatePhysics` on the resulting state, (3) send `UPDATE{state}`
carrying the post-physics snapshot, (4) draw. The second component
records the order in which the four phases execute within the tick. -/
def hostTick (k : Keys) (y : ℚ) (s : GameState) (r1 r2 : Bool) :
    (ℚ × GameState × List Msg) × List Phase :=
  let sync := syncStep Role.host k y s
  let s2 := updatePhysics sync.2.1 r1 r2
  ((sync.1, s2, [Msg.update s2]),
   [Phase.input, Phase.physics, Phase.broadcast, Phase.render])

/-- C8: on every Host frame the four phases run in the fixed order
input → physics → broadcast → render within the tick (each earlier
phase's position in the tick's execution trace strictly precedes each
later one's), and the data flow matches that order: the broadcast
message carries exactly the snapshot produced by running the physics
step on the input-updated state. -/
theorem c8_phase_order (k : Keys) (y : ℚ) (s : GameState) (r1 r2 : Bool) :
    (hostTick k y s r1 r2).2 =
      [Phase.input, Phase.physics, Phase.broadcast, Phase.render] ∧
    ((hostTick k y s r1 r2).2.indexOf Phase.input <
        (hostTick k y s r1 r2).2.indexOf Phase.physics ∧
      (hostTick k y s r1 r2).2.indexOf Phase.physics <
        (hostTick k y s r1 r2).2.indexOf Phase.broadcast ∧
      (hostTick k y s r1 r2).2.indexOf Phase.broadcast <
        (hostTick k y s r1 r2).2.indexOf Phase.render) ∧
    (hostTick k y s r1 r2).1.2.2 =
      [Msg.update (updatePhysics (syncStep Role.host k y s).2.1 r1 r2)] := by
  refine ⟨rfl, ?_, rfl⟩
  simp only [hostTick]
  decide

/-- The UI state of the Pong session: the component's `mode`, the
`statusMsg` state (part_000 line 217), whether each key listener of the
game-loop effect is registered, whether a frame callback is scheduled
(part_000 lines 318-321 and 352-354), whether the component is still
mounted (the parent's overlay flag that `onClose` clears), and the
pending delay (in ms) of a scheduled leave-the-game timeout, if any. -/
structure SessionUi where
  mode : Mode
  statusMsg : List Char
  keydownRegistered : Bool
  keyupRegistered : Bool
  frameCallbackActive : Bool
  mounted : Bool
  closeDelay : Option ℕ
deriving DecidableEq, Repr

/-- Source: the `connection.on('close')` handler (part_000 lines
273-277): write `OPPONENT DISCONNECTED` into the `statusMsg` state and
schedule `onClose` with the fixed delay `setTimeout(onClose, 3000)`.
The handler does NOT change `mode`. -/
def onConnClose (u : SessionUi) : SessionUi :=
  { u with statusMsg := "OPPONENT DISCONNECTED".data,
           closeDelay := some 3000 }

/-- Source: the render section of `MultiplayerPong` (part_000 lines
457-531): the only element that displays `statusMsg` is the
`{statusMsg && <p ...>{statusMsg}</p>}` node of the `mode === 'joining'`
view (line 510); the `menu`, `hosting` and `playing` views never render
it. The displayed notice is therefore the message exactly when the
component is mounted, in the joining mode, and the message is
nonempty. -/
def displayedNotice (u : SessionUi) : Option (List Char) :=
  if u.mounted = true ∧ u.mode = Mode.joining ∧ u.statusMsg ≠ [] then
    some u.statusMsg
  else none

/-- Source: the scheduled `onClose` firing (which unmounts the
component, returning the enclosing UI to its idle state) together with
the effect cleanup that leaving the playing state triggers (part_000
lines 443-448): `removeEventListener('keydown')`,
`removeEventListener('keyup')` and `cancelAnimationFrame(animationId)`,
so no further frame callbacks run. -/
def fireClose (u : SessionUi) : SessionUi :=
  { u with mounted := false, closeDelay := none,
           keydownRegistered := false, keyupRegistered := false,
           frameCallbackActive := false }

/-- A concrete session in the playing mode with listeners and frame
callback live. -/
def c9State : SessionUi :=
  { mode := Mode.playing, statusMsg := "CONNECTED".data
    keydownRegistered := true, keyupRegistered := true
    frameCallbackActive := true, mounted := true, closeDelay := none }

/-- C9 counterexample: at the concrete playing session `c9State`, the
close handler writes `OPPONENT DISCONNECTED` into the `statusMsg` state,
but no notice is ever displayed: `statusMsg` is rendered only in the
`joining` view (part_000 line 510), the close handler leaves the mode at
`playing`, and after the timeout the component unmounts — so the
displayed notice is `none` both before and after the timer fires,
refuting the claim that a user-visible disconnect notice is surfaced. -/
theorem c9_counterexample :
    (onConnClose c9State).statusMsg = "OPPONENT DISCONNECTED".data ∧
    displayedNotice (onConnClose c9State) = none ∧
    displayedNotice (fireClose (onConnClose c9State)) = none := by
  decide

/-- C9 amended: when the connection closes while playing, the disconnect
notice is only written into the `statusMsg` state and is never displayed
to the user (the playing view does not render `statusMsg` and the close
handler leaves the mode at `playing`); a leave timeout with the fixed
bounded delay 3000 ms is scheduled, and when it fires the component
unmounts — the UI returns to the idle state — with the keydown and keyup
listeners unregistered and the frame callback cancelled, so no further
frame callbacks fire. -/
theorem c9_amended (u : SessionUi) (h : u.mode = Mode.playing) :
    (onConnClose u).statusMsg = "OPPONENT DISCONNECTED".data ∧
    displayedNotice (onConnClose u) = none ∧
    (onConnClose u).closeDelay = some 3000 ∧
    (fireClose (onConnClose u)).mounted = false ∧
    displayedNotice (fireClose (onConnClose u)) = none ∧
    (fireClose (onConnClose u)).keydownRegistered = false ∧
    (fireClose (onConnClose u)).keyupRegistered = false ∧
    (fireClose (onConnClose u)).frameCallbackActive = false := by
  simp [onConnClose, fireClose, displayedNotice, h]

/-- Witness for C9 (amended) at the concrete playing session. -/
theorem c9_amended_witness :
    (onConnClose c9State).closeDelay = some 3000 ∧
    (fireClose (onConnClose c9State)).frameCallbackActive = false :=
  ⟨(c9_amended c9State rfl).2.2.1,
   (c9_amended c9State rfl).2.2.2.2.2.2.2⟩

end ArtixPong
